import Mathlib

/-!
Shallow embedding of the process-supervisor core of `vllm_manager.py`
(ParisNeo/vllm_deployer): the in-memory registry of running models, port
allocation, start/stop/restart/stop-all endpoints, the health probe, and
state persistence.  OS-level effects (filesystem checks, process spawning,
signal delivery, socket binding, pid lookup) are modelled by oracles in an
`Env` record; everything else is translated directly from the source.
-/

namespace VllmManager

/-- Model type tags (class ModelType in vllm_manager.py). -/
def ModelTypeTEXT : String := "text-generation"

/-- Embedding model type tag. -/
def ModelTypeEMBEDDING : String := "embedding"

/-- Configuration payload for one model (class ModelConfig).  The float field
gpu_memory_utilization is carried as a rational; the payload is stored and
echoed, never interpreted numerically by the supervisor. -/
structure ModelConfig where
  name : String
  path : String
  model_type : String
  port : Nat
  gpu_ids : String
  gpu_memory_utilization : Rat
  tensor_parallel_size : Nat
  max_model_len : Nat
  dtype : String
  quantization : Option String
  trust_remote_code : Bool
  enable_prefix_caching : Bool
  deriving Repr, DecidableEq

/-- One entry of the global `running_models` dict.  `hasProcess` records
whether the entry still holds a live Popen handle (`"process"` is not None);
`config` is the stored config dict, `none` standing for the empty dict `{}`
stored when the model was started with no explicit config. -/
structure InstanceInfo where
  hasProcess : Bool
  pid : Nat
  port : Nat
  gpu_ids : String
  model_type : String
  config : Option ModelConfig
  start_time : String
  deriving Repr, DecidableEq

/-- One entry of the JSON state file written by save_state. -/
structure SavedInfo where
  port : Nat
  pid : Nat
  gpu_ids : String
  model_type : String
  config : Option ModelConfig
  start_time : String
  deriving Repr, DecidableEq

/-- The manager's mutable state: the in-memory registry `running_models`
(an insertion-ordered dict, embedded as an association list with unique
keys) and the durable contents of vllm_manager_state.json. -/
structure ManagerState where
  running_models : List (String × InstanceInfo)
  stateFile : List (String × SavedInfo)
  deriving Repr, DecidableEq

/-- Oracles for the OS-level effects the endpoints perform. -/
structure Env where
  modelExists : String → Bool
  yamlConfigExists : String → Bool
  spawnPid : Nat
  spawnDiesEarly : Bool
  spawnStartTime : String
  portFree : Nat → Bool
  signalFails : String → Bool
  signalErrorText : String → String
  pidExists : Nat → Bool
  pidLookupRaises : Nat → Bool
  pidCmdlineVllm : Nat → Bool

/-- HTTPException raised by the endpoints, tagged by status code. -/
inductive HttpError where
  | badRequest (detail : String)
  | notFound (detail : String)
  | internalError (detail : String)
  deriving Repr, DecidableEq

/-- Detail string of an HTTPException, as collected by stop_all_models. -/
def errorDetail : HttpError → String
  | .badRequest d => d
  | .notFound d => d
  | .internalError d => d

/-- Dict lookup `running_models[name]` / `name in running_models`. -/
def lookupModel (reg : List (String × InstanceInfo)) (name : String) : Option InstanceInfo :=
  (reg.find? (fun p => p.1 == name)).map Prod.snd

/-- Dict deletion `del running_models[name]` (keys are unique). -/
def removeModel (reg : List (String × InstanceInfo)) (name : String) : List (String × InstanceInfo) :=
  reg.filter (fun p => p.1 ≠ name)

/-- The set of ports claimed by registered instances, recomputed from the
live registry (the PortSet): `{info["port"] for info in running_models.values()}`. -/
def usedPorts (reg : List (String × InstanceInfo)) : List Nat :=
  reg.map (fun p => p.2.port)

/-- is_port_available(port): tries to bind a socket; modelled by the
`portFree` oracle. -/
def is_port_available (env : Env) (port : Nat) : Bool := env.portFree port

/-- The scanning loop of find_available_port:
`while port in used_ports or not is_port_available(port): port += 1`.
The Python loop is unbounded; `fuel` makes the scan total, `none` meaning
the loop did not reach a free port within `fuel` increments. -/
def findPortLoop (used : List Nat) (env : Env) : Nat → Nat → Option Nat
  | 0, _ => none
  | fuel + 1, port =>
    if port ∈ used ∨ is_port_available env port = false then
      findPortLoop used env fuel (port + 1)
    else some port

/-- find_available_port(start_port=8000): scan upward from start_port,
skipping ports claimed by registered instances and ports that fail the
bind test. -/
def find_available_port (env : Env) (reg : List (String × InstanceInfo))
    (fuel : Nat) (start_port : Nat) : Option Nat :=
  findPortLoop (usedPorts reg) env fuel start_port

/-- Projection of a registry entry to its persisted form: save_state writes
port, pid, gpu_ids, model_type, config and start_time for every model. -/
def savedOf (info : InstanceInfo) : SavedInfo :=
  { port := info.port, pid := info.pid, gpu_ids := info.gpu_ids,
    model_type := info.model_type, config := info.config,
    start_time := info.start_time }

/-- save_state(): dump the registry (pids included) to the state file. -/
def save_state (s : ManagerState) : ManagerState :=
  { s with stateFile := s.running_models.map (fun p => (p.1, savedOf p.2)) }

/-- Registry entry rebuilt by load_state from a saved record: the Popen
handle is gone (`"process": None`) but the saved pid is kept. -/
def restoredOf (r : SavedInfo) : InstanceInfo :=
  { hasProcess := false, pid := r.pid, port := r.port, gpu_ids := r.gpu_ids,
    model_type := r.model_type, config := r.config, start_time := r.start_time }

/-- The loop of load_state over the saved entries: restore an entry when its
pid is truthy, still exists, the psutil lookup does not raise, and the
process command line mentions vllm. -/
def loadLoop (env : Env) : List (String × SavedInfo) → List (String × InstanceInfo) →
    List (String × InstanceInfo)
  | [], acc => acc
  | (n, r) :: rest, acc =>
    if r.pid ≠ 0 ∧ env.pidExists r.pid = true then
      if env.pidLookupRaises r.pid = true then loadLoop env rest acc
      else if env.pidCmdlineVllm r.pid = true then
        loadLoop env rest (acc ++ [(n, restoredOf r)])
      else loadLoop env rest acc
    else loadLoop env rest acc

/-- load_state(): rebuild the registry from the state file on startup. -/
def load_state (env : Env) (saved : List (String × SavedInfo)) :
    List (String × InstanceInfo) :=
  loadLoop env saved []

/-- An HTTP probe outcome: `none` is a network error or timeout, swallowed
by the bare except; `some (code, models)` is a reply carrying its status
code and the model names its body lists. -/
abbrev ProbeResponse := Option (Nat × List String)

/-- The probe timeout passed to httpx (`timeout=2.0`), in seconds. -/
def health_timeout_seconds : Nat := 2

/-- The URL check_model_health probes. -/
def health_probe_url (port : Nat) : String := s!"http://localhost:{port}/health"

/-- check_model_health(port): healthy iff the GET on /health returned
status 200; any exception yields False. -/
def check_model_health (resp : ProbeResponse) : Bool :=
  match resp with
  | some (code, _) => code == 200
  | none => false

/-- The spec's health judgement, stated for comparison with the code's
check_model_health: healthy only when the response enumerates the expected
display name among the served models. -/
def specHealthJudgement (expectedDisplayName : String) (resp : ProbeResponse) : Bool :=
  match resp with
  | some (_, models) => models.contains expectedDisplayName
  | none => false

/-- Status reported for one registry entry by list_running_models:
`"running" if is_healthy else "error"`. -/
def reported_status (healthy : Bool) : String :=
  if healthy then "running" else "error"

/-- Status a model reads as through the API: a model absent from the
registry is not listed among running models, i.e. stopped; a registered one
is reported by list_running_models from its probe. -/
def query_status (s : ManagerState) (name : String) (healthy : Bool) : String :=
  match lookupModel s.running_models name with
  | none => "stopped"
  | some _ => reported_status healthy

/-- Body returned by a successful start_model call. -/
structure StartResponse where
  success : Bool
  message : String
  name : String
  port : Nat
  pid : Nat
  model_type : String
  deriving Repr, DecidableEq

/-- Body returned by a successful stop_model call. -/
structure StopResponse where
  success : Bool
  message : String
  deriving Repr, DecidableEq

/-- The try block of start_model after the command is built: spawn the
process, wait 3 seconds, and if it has already exited raise 500 (rewrapped
by the outer except into "Error starting model: ...") leaving the registry
untouched; otherwise record the entry and save_state. -/
def spawnAndRegister (env : Env) (s : ManagerState) (model_name : String)
    (config : Option ModelConfig) (port : Nat) (gpu_ids : String)
    (model_type : String) : Except HttpError StartResponse × ManagerState :=
  if env.spawnDiesEarly then
    (.error (.internalError "Error starting model: 500: Failed to start model"), s)
  else
    let info : InstanceInfo :=
      { hasProcess := true, pid := env.spawnPid, port := port,
        gpu_ids := gpu_ids, model_type := model_type, config := config,
        start_time := env.spawnStartTime }
    let s1 : ManagerState :=
      { s with running_models := s.running_models ++ [(model_name, info)] }
    (.ok { success := true,
           message := s!"Model {model_name} started successfully",
           name := model_name, port := port, pid := env.spawnPid,
           model_type := model_type }, save_state s1)

/-- start_model(model_name, config): reject 400 when already registered,
404 when the model directory or its configuration is missing, resolve port
and GPU assignment from the config (falling back to the yaml default path
when config is None), then spawn and register.  Returns `none` when the
port scan diverges (no free port within fuel). -/
def start_model (env : Env) (fuel : Nat) (s : ManagerState) (model_name : String)
    (config : Option ModelConfig) :
    Option (Except HttpError StartResponse × ManagerState) :=
  if (lookupModel s.running_models model_name).isSome then
    some (.error (.badRequest s!"Model {model_name} is already running"), s)
  else if env.modelExists model_name = false then
    some (.error (.notFound s!"Model {model_name} not found"), s)
  else
    match config with
    | none =>
      if env.yamlConfigExists model_name then
        match find_available_port env s.running_models fuel 8000 with
        | none => none
        | some port =>
          some (spawnAndRegister env s model_name none port "0" ModelTypeTEXT)
      else some (.error (.notFound "No configuration found"), s)
    | some c =>
      let portRes : Option Nat :=
        if c.port ≠ 0 then some c.port
        else find_available_port env s.running_models fuel 8000
      match portRes with
      | none => none
      | some port =>
        some (spawnAndRegister env s model_name (some c) port c.gpu_ids c.model_type)

/-- stop_model(model_name): 404 when not registered; otherwise terminate
the process (any exception while signaling is caught by the outer except
and re-raised as 500, leaving the entry in place); on success delete the
entry and save_state. -/
def stop_model (env : Env) (s : ManagerState) (model_name : String) :
    Except HttpError StopResponse × ManagerState :=
  match lookupModel s.running_models model_name with
  | none => (.error (.notFound s!"Model {model_name} is not running"), s)
  | some _ =>
    if env.signalFails model_name then
      (.error (.internalError
        ("Error stopping model: " ++ env.signalErrorText model_name)), s)
    else
      let s1 : ManagerState :=
        { s with running_models := removeModel s.running_models model_name }
      (.ok { success := true,
             message := s!"Model {model_name} stopped successfully" },
       save_state s1)

/-- restart_model(model_name): 404 when not registered; stop (propagating
its exception), then read the stopped model's config back out of the
registry — `running_models.get(model_name, {}).get("config", {})`, turned
into None when the dict is empty — and start with it. -/
def restart_model (env : Env) (fuel : Nat) (s : ManagerState) (model_name : String) :
    Option (Except HttpError StartResponse × ManagerState) :=
  if (lookupModel s.running_models model_name).isNone then
    some (.error (.notFound s!"Model {model_name} is not running"), s)
  else
    match stop_model env s model_name with
    | (.error e, s1) => some (.error e, s1)
    | (.ok _, s1) =>
      let config : Option ModelConfig :=
        match lookupModel s1.running_models model_name with
        | some info => info.config
        | none => none
      start_model env fuel s1 model_name config

/-- Body returned by stop_all_models. -/
structure StopAllResponse where
  success : Bool
  stopped : List String
  errors : List (String × String)
  deriving Repr, DecidableEq

/-- The loop of stop_all_models over a snapshot of the registry keys:
try stop_model on each, collecting successes and failures. -/
def stopAllLoop (env : Env) : List String → ManagerState → List String →
    List (String × String) → StopAllResponse × ManagerState
  | [], s, stopped, errors => ({ success := true, stopped := stopped, errors := errors }, s)
  | name :: rest, s, stopped, errors =>
    match stop_model env s name with
    | (.ok _, s1) => stopAllLoop env rest s1 (stopped ++ [name]) errors
    | (.error e, s1) => stopAllLoop env rest s1 stopped (errors ++ [(name, errorDetail e)])

/-- stop_all_models(): stop every registered model, never raising; failures
are collected into the errors list of an always-successful response. -/
def stop_all_models (env : Env) (s : ManagerState) : StopAllResponse × ManagerState :=
  stopAllLoop env (s.running_models.map Prod.fst) s [] []

/-- Capacity of the per-instance log buffer described by the spec. -/
def LOG_BUFFER_CAPACITY : Nat := 200

/-- Modelled from the spec: the repository source contains no Log Hub; this
is the bounded ordered buffer of §4.2/§3 — capacity 200 most-recent lines,
oldest evicted first — push appending one line. -/
def pushLine (buf : List String) (line : String) : List String :=
  if buf.length < LOG_BUFFER_CAPACITY then buf ++ [line] else buf.drop 1 ++ [line]

/-- Modelled from the spec: pushing a sequence of lines in order into a
log channel's buffer. -/
def pushAll (buf : List String) (lines : List String) : List String :=
  lines.foldl pushLine buf

/-- Modelled from the spec: the replay a subscriber attaching now receives —
the buffered history, in order. -/
def subscribeReplay (buf : List String) : List String := buf

/-- A manager state with an empty registry and an empty state file. -/
def emptyState : ManagerState := { running_models := [], stateFile := [] }

/-- A concrete registered instance used in witnesses. -/
def infoM1 : InstanceInfo :=
  { hasProcess := true, pid := 4242, port := 8000, gpu_ids := "0",
    model_type := ModelTypeTEXT, config := none,
    start_time := "2025-01-01T00:00:00" }

/-- A manager state holding the single registered model m1. -/
def stateM1 : ManagerState :=
  { running_models := [("m1", infoM1)], stateFile := [] }

/-- A benign environment: everything exists, spawning succeeds, all ports
bindable, signaling never fails, saved pids are live vllm processes. -/
def envOk : Env :=
  { modelExists := fun _ => true, yamlConfigExists := fun _ => true,
    spawnPid := 4242, spawnDiesEarly := false, spawnStartTime := "t0",
    portFree := fun _ => true, signalFails := fun _ => false,
    signalErrorText := fun _ => "gone", pidExists := fun _ => true,
    pidLookupRaises := fun _ => false, pidCmdlineVllm := fun _ => true }

/-- Like envOk but the spawned process exits during the 3-second wait. -/
def envDies : Env := { envOk with spawnDiesEarly := true }

/-- Like envOk but delivering a signal to any model's process raises. -/
def envSigFail : Env := { envOk with signalFails := fun _ => true }

/-- Like envOk but port 8001 fails the bind test. -/
def envPortTest : Env := { envOk with portFree := fun q => decide (q ≠ 8001) }

theorem findPortLoop_spec (used : List Nat) (env : Env) :
    ∀ (fuel port p : Nat), findPortLoop used env fuel port = some p →
      port ≤ p ∧ p ∉ used ∧ is_port_available env p = true ∧
      ∀ q, port ≤ q → q < p → q ∈ used ∨ is_port_available env q = false := by
  intro fuel
  induction fuel with
  | zero => intro port p h; simp [findPortLoop] at h
  | succ n ih =>
    intro port p h
    by_cases hc : port ∈ used ∨ is_port_available env port = false
    · rw [findPortLoop, if_pos hc] at h
      obtain ⟨h1, h2, h3, h4⟩ := ih (port + 1) p h
      refine ⟨by omega, h2, h3, ?_⟩
      intro q hq1 hq2
      rcases Nat.eq_or_lt_of_le hq1 with rfl | hlt
      · exact hc
      · exact h4 q hlt hq2
    · rw [findPortLoop, if_neg hc] at h
      push_neg at hc
      cases h
      exact ⟨le_refl _, hc.1, by simpa using hc.2,
        fun q hq1 hq2 => absurd hq1 (by omega)⟩

/-- C4: find_available_port scans the integers beginning at start_port
(policy default 8000), skips every value claimed in the current PortSet or
failing the bind test, and returns the first free value: the smallest port
at or above start_port that is neither claimed by a registered instance nor
unavailable to bind. -/
theorem c4_find_available_port_least (env : Env) (reg : List (String × InstanceInfo))
    (fuel start_port p : Nat)
    (h : find_available_port env reg fuel start_port = some p) :
    start_port ≤ p ∧ p ∉ usedPorts reg ∧ is_port_available env p = true ∧
    ∀ q, start_port ≤ q → q < p → q ∈ usedPorts reg ∨ is_port_available env q = false :=
  findPortLoop_spec (usedPorts reg) env fuel start_port p h

theorem c4_witness :
    8000 ≤ 8002 ∧ 8002 ∉ usedPorts stateM1.running_models ∧
    is_port_available envPortTest 8002 = true ∧
    ∀ q, 8000 ≤ q → q < 8002 →
      q ∈ usedPorts stateM1.running_models ∨ is_port_available envPortTest q = false :=
  c4_find_available_port_least envPortTest stateM1.running_models 10 8000 8002 (by decide)

/-- C2: calling start on a modelId that has a registry entry (the code's
only live state, covering the spec's Starting and Running) returns the 400
conflict error and leaves the state — registry entry included — unchanged. -/
theorem c2_start_conflict (env : Env) (fuel : Nat) (s : ManagerState)
    (model_name : String) (config : Option ModelConfig) (info : InstanceInfo)
    (h : lookupModel s.running_models model_name = some info) :
    start_model env fuel s model_name config =
      some (Except.error (HttpError.badRequest s!"Model {model_name} is already running"), s) := by
  simp [start_model, h]

theorem c2_witness :
    start_model envOk 5 stateM1 "m1" none =
      some (Except.error (HttpError.badRequest "Model m1 is already running"), stateM1) :=
  c2_start_conflict envOk 5 stateM1 "m1" none infoM1 (by decide)

/-- C7 counterexample: a probe reply with status 200 whose body lists no
models at all is judged healthy by check_model_health, while the spec's
judgement (expectedDisplayName enumerated among served models) calls the
same reply unhealthy. -/
theorem c7_cex :
    check_model_health (some (200, [])) = true ∧
    specHealthJudgement "m1" (some (200, [])) = false :=
  ⟨rfl, rfl⟩

/-- C7 amended: the health probe is an HTTP GET on the instance's own
/health endpoint with a bounded 2-second timeout, and the instance is
judged healthy exactly when the reply has status 200 — the served-model
listing and expectedDisplayName are never consulted; any non-200 reply or
network error counts as not healthy. -/
theorem c7_health_is_status_200 : ∀ (resp : ProbeResponse) (port : Nat),
    (check_model_health resp = true ↔ ∃ models, resp = some (200, models)) ∧
    health_probe_url port = "http://localhost:" ++ toString port ++ "/health" ∧
    health_timeout_seconds = 2 := by
  intro resp port
  refine ⟨?_, ?_, rfl⟩
  · cases resp with
    | none => simp [check_model_health]
    | some p =>
      obtain ⟨code, ms⟩ := p
      simp [check_model_health, Prod.ext_iff]
  · rfl

theorem lookupModel_removeModel_self (reg : List (String × InstanceInfo)) (name : String) :
    lookupModel (removeModel reg name) name = none := by
  induction reg with
  | nil => rfl
  | cons p rest ih =>
    by_cases hp : p.1 = name
    · have hr : removeModel (p :: rest) name = removeModel rest name := by
        simp [removeModel, hp]
      rw [hr]; exact ih
    · have hr : removeModel (p :: rest) name = p :: removeModel rest name := by
        simp [removeModel, hp]
      rw [hr]
      have hb : (p.1 == name) = false := by
        simpa using hp
      simp [lookupModel, List.find?, hb]
      simpa [lookupModel] using ih

/-- C3 corrected: stop fails NotFound when no registry record exists, and on
a successful termination it removes the entry (status afterwards Stopped);
but a signal-delivery failure is not swallowed: it raises a 500 error and
the registry entry is retained, so a subsequent status query still reports
the instance, not Stopped. -/
theorem c3_stop_behavior (env : Env) (s : ManagerState) (name : String) (healthy : Bool) :
    (lookupModel s.running_models name = none →
      stop_model env s name =
        (Except.error (HttpError.notFound s!"Model {name} is not running"), s))
    ∧ (∀ info, lookupModel s.running_models name = some info →
        env.signalFails name = false →
        (stop_model env s name).1 =
          Except.ok { success := true, message := s!"Model {name} stopped successfully" }
        ∧ query_status (stop_model env s name).2 name healthy = "stopped")
    ∧ (∀ info, lookupModel s.running_models name = some info →
        env.signalFails name = true →
        stop_model env s name =
          (Except.error (HttpError.internalError
            ("Error stopping model: " ++ env.signalErrorText name)), s)
        ∧ query_status s name healthy = reported_status healthy) := by
  refine ⟨?_, ?_, ?_⟩
  · intro h; simp [stop_model, h]
  · intro info h hsig
    refine ⟨?_, ?_⟩
    · simp [stop_model, h, hsig]
    · simp [stop_model, h, hsig, query_status, save_state, lookupModel_removeModel_self]
  · intro info h hsig
    refine ⟨?_, ?_⟩
    · simp [stop_model, h, hsig]
    · simp [query_status, h]

/-- C3 counterexample: with m1 registered and signal delivery failing, stop
raises the 500 error, the registry entry survives, and a status query still
reports running — the claim's "registry entry is removed regardless, so a
subsequent status query reports Stopped" fails. -/
theorem c3_cex :
    stop_model envSigFail stateM1 "m1" =
      (Except.error (HttpError.internalError "Error stopping model: gone"), stateM1)
    ∧ lookupModel stateM1.running_models "m1" = some infoM1
    ∧ query_status stateM1 "m1" true = "running" := by
  refine ⟨?_, by decide, by decide⟩
  rfl

theorem c3_witness :
    (stop_model envOk stateM1 "m1").1 =
      Except.ok { success := true, message := "Model m1 stopped successfully" }
    ∧ query_status (stop_model envOk stateM1 "m1").2 "m1" true = "stopped" :=
  (c3_stop_behavior envOk stateM1 "m1" true).2.1 infoM1 (by decide) rfl

/-- C5: a port claimed by a registered instance is never returned by the
allocator while the entry remains in the registry, and once stop succeeds
for that instance (and no other entry claims the same port) the port leaves
the PortSet, becoming allocatable again. -/
theorem c5_port_exclusive (env : Env) (s : ManagerState) (name : String)
    (info : InstanceInfo) (h : (name, info) ∈ s.running_models) :
    (∀ fuel start_port,
      find_available_port env s.running_models fuel start_port ≠ some info.port)
    ∧ ∀ r s2, stop_model env s name = (Except.ok r, s2) →
        (∀ p ∈ s.running_models, p.1 ≠ name → p.2.port ≠ info.port) →
        info.port ∉ usedPorts s2.running_models := by
  constructor
  · intro fuel start_port hcontra
    have hspec := findPortLoop_spec (usedPorts s.running_models) env fuel start_port info.port hcontra
    exact hspec.2.1 (List.mem_map_of_mem (fun p => p.2.port) h)
  · intro r s2 hstop huniq hmem
    have hl : ∃ i, lookupModel s.running_models name = some i := by
      cases hli : lookupModel s.running_models name with
      | none => simp [stop_model, hli] at hstop
      | some i => exact ⟨i, rfl⟩
    obtain ⟨i, hli⟩ := hl
    by_cases hsig : env.signalFails name
    · simp [stop_model, hli, hsig] at hstop
    · have hs2 : s2.running_models = removeModel s.running_models name := by
        have := hstop
        simp only [stop_model, hli, hsig, Bool.false_eq_true, if_false] at this
        have h2 := congrArg Prod.snd this
        simp at h2
        rw [← h2]
        rfl
      rw [hs2] at hmem
      obtain ⟨q, hq, hqport⟩ := List.mem_map.mp hmem
      have hq2 := List.mem_filter.mp hq
      exact huniq q hq2.1 (by simpa using hq2.2) hqport

theorem c5_witness :
    find_available_port envOk stateM1.running_models 5 8000 ≠ some infoM1.port ∧
    infoM1.port ∉ usedPorts (stop_model envOk stateM1 "m1").2.running_models := by
  constructor
  · exact (c5_port_exclusive envOk stateM1 "m1" infoM1 (by decide)).1 5 8000
  · refine (c5_port_exclusive envOk stateM1 "m1" infoM1 (by decide)).2
      { success := true, message := "Model m1 stopped successfully" }
      (stop_model envOk stateM1 "m1").2 ?_ ?_
    · rfl
    · intro p hp hne
      simp [stateM1] at hp
      rw [hp] at hne
      exact absurd rfl hne

/-- C9: restart on a registered model whose stop succeeds never reuses the
saved configuration — stop removes the registry entry before the config is
looked up, the lookup yields the empty dict, and start is invoked with
config = None, falling back to the on-disk default configuration path. -/
theorem c9_restart_drops_config (env : Env) (fuel : Nat) (s : ManagerState)
    (name : String) (info : InstanceInfo)
    (h : lookupModel s.running_models name = some info)
    (hsig : env.signalFails name = false) :
    restart_model env fuel s name =
      start_model env fuel (stop_model env s name).2 name none := by
  simp only [restart_model, stop_model, h, hsig, Bool.false_eq_true, if_false,
    Option.isNone_some]
  simp [save_state, lookupModel_removeModel_self]

theorem c9_witness :
    restart_model envOk 5 stateM1 "m1" =
      start_model envOk 5 (stop_model envOk stateM1 "m1").2 "m1" none :=
  c9_restart_drops_config envOk 5 stateM1 "m1" infoM1 (by decide) rfl

theorem spawnAndRegister_dies (env : Env) (s : ManagerState) (model_name : String)
    (config : Option ModelConfig) (port : Nat) (gpu_ids model_type : String)
    (hd : env.spawnDiesEarly = true) :
    spawnAndRegister env s model_name config port gpu_ids model_type =
      (.error (.internalError "Error starting model: 500: Failed to start model"), s) := by
  simp [spawnAndRegister, hd]

/-- C1 corrected: start is not fire-and-forget — it waits a fixed 3 seconds
after spawning, and a process that has exited by then produces a
synchronous 500 error response; no Starting status exists, nothing is added
to the registry on failure, and the model still reads as Stopped (never a
terminal Error status). -/
theorem c1_early_exit_synchronous_500 (env : Env) (fuel : Nat) (s : ManagerState)
    (model_name : String) (config : Option ModelConfig) (healthy : Bool)
    (hd : env.spawnDiesEarly = true)
    (hnotreg : lookupModel s.running_models model_name = none) :
    ∀ r s2, start_model env fuel s model_name config = some (r, s2) →
      (∃ e, r = Except.error e) ∧ s2 = s ∧
      query_status s2 model_name healthy = "stopped" := by
  intro r s2 hrun
  have hq : query_status s model_name healthy = "stopped" := by
    simp [query_status, hnotreg]
  simp only [start_model, hnotreg, Option.isSome_none, Bool.false_eq_true, if_false,
    spawnAndRegister, hd, if_true] at hrun
  repeat' split at hrun
  all_goals
    first
      | exact Option.noConfusion hrun
      | · simp only [Option.some.injEq, Prod.mk.injEq] at hrun
          obtain ⟨h1, h2⟩ := hrun
          subst h2
          exact ⟨⟨_, h1.symm⟩, rfl, hq⟩

/-- C1 counterexample: a fresh model whose process exits during the
3-second wait — start_model returns the 500 error synchronously and the
post state has no registry entry, so the model reads as Stopped, not as a
terminal Error. -/
theorem c1_cex :
    start_model envDies 5 emptyState "m1" none =
      some (Except.error
        (HttpError.internalError "Error starting model: 500: Failed to start model"),
        emptyState)
    ∧ query_status emptyState "m1" false = "stopped" := by
  refine ⟨?_, rfl⟩
  rfl

theorem c1_witness :
    (∃ e, (Except.error
        (HttpError.internalError "Error starting model: 500: Failed to start model") :
        Except HttpError StartResponse) = Except.error e)
    ∧ emptyState = emptyState
    ∧ query_status emptyState "m1" false = "stopped" :=
  c1_early_exit_synchronous_500 envDies 5 emptyState "m1" none false rfl rfl
    (Except.error
      (HttpError.internalError "Error starting model: 500: Failed to start model"))
    emptyState rfl

theorem loadLoop_acc_mono (env : Env) :
    ∀ (saved : List (String × SavedInfo)) (acc : List (String × InstanceInfo))
      (x : String × InstanceInfo), x ∈ acc → x ∈ loadLoop env saved acc := by
  intro saved
  induction saved with
  | nil => intro acc x hx; simpa [loadLoop] using hx
  | cons p rest ih =>
    intro acc x hx
    obtain ⟨n, r⟩ := p
    simp only [loadLoop]
    split
    · split
      · exact ih acc x hx
      · split
        · exact ih _ x (List.mem_append_left _ hx)
        · exact ih acc x hx
    · exact ih acc x hx

theorem loadLoop_mem (env : Env) :
    ∀ (saved : List (String × SavedInfo)) (acc : List (String × InstanceInfo))
      (n : String) (r : SavedInfo), (n, r) ∈ saved → r.pid ≠ 0 →
      env.pidExists r.pid = true → env.pidLookupRaises r.pid = false →
      env.pidCmdlineVllm r.pid = true →
      (n, restoredOf r) ∈ loadLoop env saved acc := by
  intro saved
  induction saved with
  | nil => intro acc n r h; simp at h
  | cons p rest ih =>
    intro acc n r hmem h0 hex hraise hcmd
    obtain ⟨m, q⟩ := p
    rcases List.mem_cons.mp hmem with heq | htail
    · obtain ⟨hn, hq⟩ := Prod.ext_iff.mp heq
      simp only at hn hq
      subst hn
      subst hq
      simp only [loadLoop]
      rw [if_pos ⟨h0, hex⟩, if_neg (by simp [hraise]), if_pos hcmd]
      exact loadLoop_acc_mono env rest _ _
        (List.mem_append_right _ (List.mem_singleton.mpr rfl))
    · simp only [loadLoop]
      split
      · split
        · exact ih acc n r htail h0 hex hraise hcmd
        · split
          · exact ih _ n r htail h0 hex hraise hcmd
          · exact ih acc n r htail h0 hex hraise hcmd
      · exact ih acc n r htail h0 hex hraise hcmd

/-- C6 corrected: the core does persist process handles — save_state writes
every registered model's pid (with its port, gpu assignment, type, config
and start time) to the durable state file, and after a restart load_state
repopulates the registry from that file, carrying the saved pid (with the
Popen handle itself nulled), whenever the pid still exists and its command
line mentions vllm. -/
theorem c6_pids_persisted (s : ManagerState) (name : String) (info : InstanceInfo)
    (h : (name, info) ∈ s.running_models) :
    (name, savedOf info) ∈ (save_state s).stateFile ∧ (savedOf info).pid = info.pid ∧
    ∀ env : Env, info.pid ≠ 0 → env.pidExists info.pid = true →
      env.pidLookupRaises info.pid = false → env.pidCmdlineVllm info.pid = true →
      (name, restoredOf (savedOf info)) ∈ load_state env (save_state s).stateFile ∧
      (restoredOf (savedOf info)).pid = info.pid := by
  have hmem : (name, savedOf info) ∈ (save_state s).stateFile := by
    simp only [save_state]
    exact List.mem_map.mpr ⟨(name, info), h, rfl⟩
  refine ⟨hmem, rfl, ?_⟩
  intro env h0 hex hraise hcmd
  exact ⟨loadLoop_mem env _ [] name (savedOf info) hmem h0 hex hraise hcmd, rfl⟩

/-- C6 counterexample: a registry holding m1 with pid 4242 — save_state
writes that pid to the state file, and load_state in an environment where
the pid is a live vllm process restores a non-empty registry remembering
pid 4242; the claim's "never writes PIDs to durable storage" and "registry
starts empty after a restart" both fail. -/
theorem c6_cex :
    (save_state stateM1).stateFile = [("m1", savedOf infoM1)]
    ∧ (savedOf infoM1).pid = 4242
    ∧ load_state envOk (save_state stateM1).stateFile = [("m1", restoredOf (savedOf infoM1))]
    ∧ (restoredOf (savedOf infoM1)).pid = 4242 := by
  refine ⟨rfl, rfl, ?_, rfl⟩
  rfl

theorem c6_witness :
    ("m1", savedOf infoM1) ∈ (save_state stateM1).stateFile
    ∧ (savedOf infoM1).pid = infoM1.pid
    ∧ ("m1", restoredOf (savedOf infoM1)) ∈ load_state envOk (save_state stateM1).stateFile :=
  ⟨(c6_pids_persisted stateM1 "m1" infoM1 (by decide)).1,
   (c6_pids_persisted stateM1 "m1" infoM1 (by decide)).2.1,
   ((c6_pids_persisted stateM1 "m1" infoM1 (by decide)).2.2 envOk (by decide) rfl rfl rfl).1⟩

theorem pushAll_takeLast : ∀ (lines buf : List String),
    buf.length ≤ LOG_BUFFER_CAPACITY →
    pushAll buf lines =
      (buf ++ lines).drop (buf.length + lines.length - LOG_BUFFER_CAPACITY) := by
  intro lines
  induction lines with
  | nil =>
    intro buf h
    have h0 : buf.length + ([] : List String).length - LOG_BUFFER_CAPACITY = 0 := by
      simp only [List.length_nil]
      omega
    rw [h0]
    simp [pushAll]
  | cons l ls ih =>
    intro buf h
    by_cases hlt : buf.length < LOG_BUFFER_CAPACITY
    · have hstep : pushAll buf (l :: ls) = pushAll (buf ++ [l]) ls := by
        simp [pushAll, pushLine, hlt]
      have hlen : (buf ++ [l]).length + ls.length - LOG_BUFFER_CAPACITY
          = buf.length + (l :: ls).length - LOG_BUFFER_CAPACITY := by
        simp only [List.length_append, List.length_cons, List.length_nil]
        omega
      rw [hstep, ih (buf ++ [l]) (by simp only [List.length_append]; simp; omega), hlen,
        List.append_assoc]
      simp only [List.singleton_append]
    · have hb : buf.length = LOG_BUFFER_CAPACITY := le_antisymm h (not_lt.mp hlt)
      cases buf with
      | nil => simp [LOG_BUFFER_CAPACITY] at hb
      | cons b bs =>
        have hnlt : ¬ bs.length + 1 < LOG_BUFFER_CAPACITY := by
          simpa using hlt
        have hstep : pushAll (b :: bs) (l :: ls) = pushAll (bs ++ [l]) ls := by
          simp [pushAll, pushLine, hnlt]
        have hbs : bs.length + 1 = LOG_BUFFER_CAPACITY := by
          simpa using hb
        have hlen1 : (bs ++ [l]).length + ls.length - LOG_BUFFER_CAPACITY = ls.length := by
          simp only [List.length_append, List.length_cons, List.length_nil]
          omega
        have hlen2 : (b :: bs).length + (l :: ls).length - LOG_BUFFER_CAPACITY
            = ls.length + 1 := by
          simp only [List.length_cons]
          omega
        rw [hstep, ih (bs ++ [l])
            (by simp only [List.length_append, List.length_cons, List.length_nil]; omega),
          hlen1, hlen2, List.append_assoc]
        simp only [List.singleton_append, List.nil_append, List.cons_append,
          List.drop_succ_cons]

/-- C8: after pushing more than 200 lines into a fresh log channel, the
replay a newly attaching subscriber receives is exactly the most recent 200
lines in push order — the oldest lines having been evicted first — and its
length is exactly the capacity 200. -/
theorem c8_replay_last_200 (lines : List String)
    (h : lines.length > LOG_BUFFER_CAPACITY) :
    subscribeReplay (pushAll [] lines) =
      lines.drop (lines.length - LOG_BUFFER_CAPACITY) ∧
    (subscribeReplay (pushAll [] lines)).length = LOG_BUFFER_CAPACITY := by
  have hp := pushAll_takeLast lines [] (by simp)
  simp only [List.nil_append, List.length_nil, Nat.zero_add] at hp
  refine ⟨by simpa [subscribeReplay] using hp, ?_⟩
  simp only [subscribeReplay, hp, List.length_drop]
  omega

set_option maxRecDepth 4000 in
theorem c8_witness :
    (List.replicate 150 "a" ++ List.replicate 51 "b").length > LOG_BUFFER_CAPACITY
    ∧ subscribeReplay (pushAll [] (List.replicate 150 "a" ++ List.replicate 51 "b")) =
        (List.replicate 150 "a" ++ List.replicate 51 "b").drop
          ((List.replicate 150 "a" ++ List.replicate 51 "b").length - LOG_BUFFER_CAPACITY) :=
  ⟨by simp [LOG_BUFFER_CAPACITY],
   (c8_replay_last_200 (List.replicate 150 "a" ++ List.replicate 51 "b")
     (by simp [LOG_BUFFER_CAPACITY])).1⟩

theorem stopAllLoop_spec (env : Env) :
    ∀ (names : List String) (s : ManagerState) (stopped : List String)
      (errors : List (String × String)),
      (stopAllLoop env names s stopped errors).1.success = true ∧
      ∀ n : String, (n ∈ stopped ∨ n ∈ errors.map Prod.fst ∨ n ∈ names) →
        n ∈ (stopAllLoop env names s stopped errors).1.stopped ∨
        n ∈ (stopAllLoop env names s stopped errors).1.errors.map Prod.fst := by
  intro names
  induction names with
  | nil =>
    intro s stopped errors
    refine ⟨rfl, ?_⟩
    intro n hn
    simp only [stopAllLoop]
    rcases hn with h | h | h
    · exact Or.inl h
    · exact Or.inr h
    · simp at h
  | cons name rest ih =>
    intro s stopped errors
    cases hsm : stop_model env s name with
    | mk res s1 =>
      cases res with
      | ok r =>
        have hred : stopAllLoop env (name :: rest) s stopped errors =
            stopAllLoop env rest s1 (stopped ++ [name]) errors := by
          simp only [stopAllLoop, hsm]
        rw [hred]
        refine ⟨(ih s1 (stopped ++ [name]) errors).1, ?_⟩
        intro n hn
        refine (ih s1 (stopped ++ [name]) errors).2 n ?_
        rcases hn with h | h | h
        · exact Or.inl (List.mem_append_left _ h)
        · exact Or.inr (Or.inl h)
        · rcases List.mem_cons.mp h with rfl | h2
          · exact Or.inl (List.mem_append_right _ (List.mem_singleton.mpr rfl))
          · exact Or.inr (Or.inr h2)
      | error e =>
        have hred : stopAllLoop env (name :: rest) s stopped errors =
            stopAllLoop env rest s1 stopped (errors ++ [(name, errorDetail e)]) := by
          simp only [stopAllLoop, hsm]
        rw [hred]
        refine ⟨(ih s1 stopped (errors ++ [(name, errorDetail e)])).1, ?_⟩
        intro n hn
        refine (ih s1 stopped (errors ++ [(name, errorDetail e)])).2 n ?_
        rcases hn with h | h | h
        · exact Or.inl h
        · refine Or.inr (Or.inl ?_)
          rw [List.map_append]
          exact List.mem_append_left _ h
        · rcases List.mem_cons.mp h with rfl | h2
          · refine Or.inr (Or.inl ?_)
            rw [List.map_append]
            refine List.mem_append_right _ ?_
            simp
          · exact Or.inr (Or.inr h2)

/-- C10: stop_all_models never raises to the caller — for every registry
state it attempts a stop for each registered model, collects each failure
into the errors list of the response, and always returns success = true,
every registered model appearing among the stopped or the failed. -/
theorem c10_stop_all_never_fails (env : Env) (s : ManagerState) :
    (stop_all_models env s).1.success = true ∧
    ∀ p ∈ s.running_models,
      p.1 ∈ (stop_all_models env s).1.stopped ∨
      p.1 ∈ (stop_all_models env s).1.errors.map Prod.fst := by
  have h := stopAllLoop_spec env (s.running_models.map Prod.fst) s [] []
  exact ⟨h.1, fun p hp =>
    h.2 p.1 (Or.inr (Or.inr (List.mem_map_of_mem Prod.fst hp)))⟩

theorem c10_witness :
    (stop_all_models envSigFail stateM1).1.success = true ∧
    ("m1" ∈ (stop_all_models envSigFail stateM1).1.stopped ∨
     "m1" ∈ (stop_all_models envSigFail stateM1).1.errors.map Prod.fst) :=
  ⟨(c10_stop_all_never_fails envSigFail stateM1).1,
   (c10_stop_all_never_fails envSigFail stateM1).2 ("m1", infoM1) (by decide)⟩

end VllmManager
